import Mathlib

/-!
Verification development for the `dify-database-to-knowledge` schema extractor
(`src/tools/database_utils.py`). The Python module is embedded shallowly:
the database-access layer (sqlalchemy engine / inspector / connections) is
modelled by an explicit environment `DBEnv` mapping query strings to results,
rows are lists of nullable string values, and fallible calls return `Except`.
Python `None` is modelled by `Option.none`, Python truthiness of strings,
rows and row values is modelled explicitly.
-/

namespace Dify

set_option maxRecDepth 65536

/-- Row returned by a cursor: a tuple of nullable values. -/
abbrev Row := List (Option String)

/-- Database errors surfaced by the access layer (connection/query failures). -/
abbrev DBErr := String

/-- Value at index `i` of a row; out-of-range reads are modelled as null. -/
def rowIdx (row : Row) (i : Nat) : Option String := row.getD i none

/-- Python truthiness of a `fetchone` result: `None` and the empty tuple are falsy. -/
def truthyRow : Option Row → Bool
  | none => false
  | some r => !r.isEmpty

/-- Python truthiness of an optional string argument (`if table_names:`). -/
def strOptTruthy : Option String → Bool
  | none => false
  | some s => s ≠ ""

/-- Value of index `i` of an optional row, null when the row is absent. -/
def rowVal (r : Option Row) (i : Nat) : Option String := rowIdx (r.getD []) i

/-- Python expression `row[idx] if row and row[idx] else fallback` applied to a
`fetchone` result. -/
def pyRowValOr (idx : Nat) (fallback : String) : Option Row → String
  | none => fallback
  | some row =>
    if row.isEmpty then fallback
    else
      match rowIdx row idx with
      | some v => if v = "" then fallback else v
      | none => fallback

/-- Python `str.replace "\n" ""` on a comment: removes every newline character. -/
def stripNewlines (s : String) : String := ⟨s.data.filter (fun c => c ≠ '\n')⟩

/-- Python `str.strip()`: remove leading and trailing whitespace. -/
def pyStrip (s : String) : String :=
  ⟨((s.data.dropWhile Char.isWhitespace).reverse.dropWhile Char.isWhitespace).reverse⟩

/-- Python `str.split(',')` on the character list: split at every comma;
the empty text yields one empty field. -/
def pySplitComma : List Char → List (List Char)
  | [] => [[]]
  | c :: cs =>
    if c = ',' then [] :: pySplitComma cs
    else
      match pySplitComma cs with
      | [] => [[c]]
      | h :: rest => (c :: h) :: rest

/-- Python `table_names.split(',')`. -/
def pySplit (s : String) : List String := (pySplitComma s.data).map (fun l => ⟨l⟩)

/-- Python `str.lower()` on the ASCII fragment, which is all the module uses:
`Char.toLower` maps `A`..`Z` to `a`..`z` and fixes every other character,
exactly as Python does on ASCII. -/
def pyLower (s : String) : String := ⟨s.data.map Char.toLower⟩

/-- Python `str.upper()` on the ASCII fragment, which is all the module uses:
`Char.toUpper` maps `a`..`z` to `A`..`Z` and fixes every other character,
exactly as Python does on ASCII. -/
def pyUpper (s : String) : String := ⟨s.data.map Char.toUpper⟩

/-- Column entry of the normalized schema dict. `name` and `typeStr` are raw row
values on the doris/oracle paths and hence nullable; `comment` is always a
string because every path applies `(x or "").replace("\n", "")`. -/
structure ColumnInfo where
  name : Option String
  typeStr : Option String
  comment : String
  deriving DecidableEq

/-- Normalized per-table schema dict. The `comment` entry is nullable: the
oracle and doris paths store a raw row value into it. -/
structure TableSchema where
  table_name : String
  comment : Option String
  columns : List ColumnInfo
  deriving DecidableEq

/-- Result map of `get_all_tables_schema`: a Python dict, modelled as an
association list with dict insertion semantics. -/
abbrev SchemaMap := List (String × TableSchema)

/-- Python dict insertion: overwrite in place when the key exists, else append. -/
def dictInsert {α : Type} [DecidableEq α] {β : Type} (m : List (α × β)) (k : α) (v : β) :
    List (α × β) :=
  if m.any (fun p => p.1 = k) then m.map (fun p => if p.1 = k then (k, v) else p)
  else m ++ [(k, v)]

/-- Python `dict(pairs)`: left-to-right insertion of the pairs into an empty dict. -/
def dictOfList {α β : Type} [DecidableEq α] (l : List (α × β)) : List (α × β) :=
  l.foldl (fun m p => dictInsert m p.1 p.2) []

/-- Column description produced by sqlalchemy `inspector.get_columns`:
`name` and the rendered `str(type)` are strings, `comment` is nullable. -/
structure ReflectedColumn where
  name : String
  typeStr : String
  comment : Option String
  deriving DecidableEq

/-- Abstract database environment: the behaviour of the sqlalchemy engine,
inspector and connections that the module delegates to. `fetchone`/`fetchall`
map an SQL text to its result; failures are `Except.error`. -/
structure DBEnv where
  inspectorTables : Except DBErr (List String)
  fetchone : String → Except DBErr (Option Row)
  fetchall : String → Except DBErr (List Row)
  getColumns : String → Except DBErr (List ReflectedColumn)

/-- Configuration failure at construction (the `drivers[db_type]` KeyError,
classified as a ConfigurationError by the design). -/
inductive ConfigError where
  | unknownFamily (family : String)
  deriving DecidableEq

/-- Driver dict of `_build_db_url`. -/
def driverFor (dbt : String) : Option String :=
  if dbt = "mysql" then some "pymysql"
  else if dbt = "oracle" then some "oracledb"
  else if dbt = "mssql" then some "pymssql"
  else if dbt = "postgresql" then some "psycopg2"
  else none

/-- Model of `urllib.parse.parse_qsl` on a `key=value&key=value` string
(percent/plus decoding omitted: the module never relies on it): fields without
`=` or with an empty value are skipped, a value keeps any further `=`. -/
def parseQsl (s : String) : List (String × String) :=
  (s.splitOn "&").filterMap fun field =>
    match field.splitOn "=" with
    | [] => none
    | [_] => none
    | k :: rest =>
      let v := String.intercalate "=" rest
      if v = "" then none else some (k, v)

/-- Connection descriptor produced by `sqlalchemy.URL.create`. -/
structure URLDescr where
  drivername : String
  username : String
  password : String
  host : String
  port : Int
  database : String
  query : Option (List (String × String))
  deriving DecidableEq

/-- Embedding of `_build_db_url`: lowercase the family, map the `doris` alias
to `mysql`, look up the driver (KeyError on an unknown family), and build the
URL descriptor. -/
def _build_db_url (db_type host : String) (port : Int)
    (username password database properties : String) : Except ConfigError URLDescr :=
  let dbt0 := pyLower db_type
  let dbt := if dbt0 = "doris" then "mysql" else dbt0
  match driverFor dbt with
  | none => .error (.unknownFamily dbt)
  | some drv => .ok {
      drivername := dbt ++ "+" ++ drv
      username := username
      password := password
      host := host
      port := port
      database := database
      query := if properties ≠ "" then some (dictOfList (parseQsl properties)) else none }

/-- Embedding of the `DBSchemaExtractor` instance state after `__init__`:
the built URL (held by the engine) and the attributes the methods read.
Note that `db_type` is stored exactly as the caller spelled it. -/
structure DBSchemaExtractor where
  url : URLDescr
  db_type : String
  username : String
  deriving DecidableEq

/-- Embedding of `DBSchemaExtractor.__init__` (engine/inspector creation is
delegated to the environment and carries no state of its own here). -/
def DBSchemaExtractor.init (db_type host : String) (port : Int)
    (username password database properties : String) :
    Except ConfigError DBSchemaExtractor :=
  (_build_db_url db_type host port username password database properties).map
    (fun url => { url := url, db_type := db_type, username := username })

/-- Query text built for the mysql table-comment lookup. -/
def mysqlCommentQuery (t : String) : String :=
  "SELECT table_comment FROM information_schema.tables WHERE table_name = '" ++ t ++ "';"

/-- Query text built for the postgresql table-comment lookup. -/
def pgCommentQuery (t : String) : String :=
  "SELECT obj_description('\"" ++ t ++ "\"'::regclass, 'pg_class');"

/-- Query text built for the mssql table-comment lookup. -/
def mssqlCommentQuery (t : String) : String :=
  "SELECT cast(EP.value as nvarchar(500)) FROM sys.tables T INNER JOIN sys.extended_properties EP ON T.object_id = EP.major_id WHERE T.name = '" ++ t ++ "' AND EP.minor_id = 0;"

/-- Query text of `_get_doris_create_statement`. -/
def showCreateQuery (t : String) : String := "SHOW CREATE TABLE " ++ t ++ ";"

/-- Query text of the oracle table-comment lookup in `_get_oracle_table_schema`. -/
def oracleCommentQuery (username t : String) : String :=
  "SELECT COMMENTS FROM ALL_TAB_COMMENTS WHERE OWNER = '" ++ username ++
    "' AND TABLE_NAME = '" ++ t ++ "' OR TABLE_NAME = '" ++ pyUpper t ++ "'"

/-- Query text of the oracle column lookup in `_get_oracle_table_schema`
(the triple-quoted source string, its indentation included). -/
def oracleColumnsQuery (username t : String) : String :=
  "SELECT\n                    a.COLUMN_NAME column_name,\n                    a.DATA_TYPE AS column_type,\n                    b.COMMENTS AS column_comment\n                FROM\n                    ALL_TAB_COLUMNS a\n                LEFT JOIN\n                    ALL_COL_COMMENTS b ON a.OWNER = b.OWNER\n                    AND a.TABLE_NAME = b.TABLE_NAME\n                    AND a.COLUMN_NAME = b.COLUMN_NAME\n                WHERE\n                    a.OWNER = '" ++ username ++
    "'\n                    AND (a.TABLE_NAME = '" ++ t ++ "' OR a.TABLE_NAME = '" ++ pyUpper t ++
    "')\n                ORDER BY\n                    a.COLUMN_ID"

/-- Query text of the doris table-comment lookup in `_get_doris_table_schema`. -/
def dorisTableCommentQuery (db t : String) : String :=
  "SELECT table_comment FROM information_schema.tables WHERE table_schema = '" ++ db ++
    "' AND table_name = '" ++ t ++ "';"

/-- Query text of the doris column lookup in `_get_doris_table_schema`. -/
def dorisColumnsQuery (db t : String) : String :=
  "SELECT column_name, column_type, column_comment FROM information_schema.columns WHERE table_schema = '" ++ db ++
    "' AND table_name = '" ++ t ++ "' ORDER BY ordinal_position"

/-- Case-insensitive character comparison (Python `re.IGNORECASE` on ASCII). -/
def ciEq (a b : Char) : Bool := a.toLower = b.toLower

/-- Attempt to drop a case-insensitive literal pattern from the front of the text. -/
def ciTakePat : List Char → List Char → Option (List Char)
  | [], s => some s
  | _ :: _, [] => none
  | p :: ps, c :: cs => if ciEq p c then ciTakePat ps cs else none

/-- Characters up to the next single quote, failing when a newline (which `.`
does not match) or the end of the text comes first. -/
def takeToQuote : List Char → Option (List Char)
  | [] => none
  | c :: cs =>
    if c = '\'' then some []
    else if c = '\n' then none
    else (takeToQuote cs).map (fun l => c :: l)

/-- Literal part of the pattern `COMMENT='(.*?)'`. -/
def commentPat : List Char := "COMMENT='".data

/-- Leftmost match of `re.search(r"COMMENT='(.*?)'", s, re.IGNORECASE)`:
scan left to right for the literal head; at a matching head the lazy group
captures up to the first following quote, and a failing head (no closing quote
before a newline or the end) resumes the scan one character later. -/
def searchComment : List Char → Option (List Char)
  | [] => none
  | c :: cs =>
    match ciTakePat commentPat (c :: cs) with
    | some rest =>
      match takeToQuote rest with
      | some cap => some cap
      | none => searchComment cs
    | none => searchComment cs

/-- First captured group of the doris comment regex, if any. -/
def firstCommentCapture (s : String) : Option String :=
  (searchComment s.data).map (fun l => ⟨l⟩)

/-- Embedding of `_get_doris_create_statement`. -/
def _get_doris_create_statement (env : DBEnv) (t : String) : Except DBErr String :=
  (env.fetchone (showCreateQuery t)).map (pyRowValOr 1 "")

/-- Embedding of `_get_table_comment`: build the family query (empty sentinel
when no branch applies), except that the doris branch parses the CREATE
statement and returns inside the chain; an empty query falls back to the
table name. -/
def _get_table_comment (ex : DBSchemaExtractor) (env : DBEnv) (t : String) :
    Except DBErr String :=
  let query :=
    if ex.db_type = "mysql" then mysqlCommentQuery t
    else if ex.db_type = "postgresql" then pgCommentQuery t
    else if ex.db_type = "mssql" then mssqlCommentQuery t
    else ""
  if ex.db_type = "doris" then
    (_get_doris_create_statement env t).map (fun stmt =>
      match firstCommentCapture stmt with
      | some c => c
      | none => t)
  else if query ≠ "" then (env.fetchone query).map (pyRowValOr 0 t)
  else pure t

/-- Embedding of the generic (non-oracle, non-doris) branch of `_get_table_schema`. -/
def get_generic_table_schema (ex : DBSchemaExtractor) (env : DBEnv) (t : String) :
    Except DBErr TableSchema := do
  let comment ← _get_table_comment ex env t
  let cols ← env.getColumns t
  pure { table_name := t
         comment := some comment
         columns := cols.map (fun c =>
           { name := some c.name
             comment := stripNewlines (c.comment.getD "")
             typeStr := some c.typeStr }) }

/-- Embedding of `_get_oracle_table_schema`. The comment is `result[0] if
result else ""`: an existing row stores its raw (possibly null) value. -/
def _get_oracle_table_schema (ex : DBSchemaExtractor) (env : DBEnv) (t : String) :
    Except DBErr TableSchema := do
  let r ← env.fetchone (oracleCommentQuery ex.username t)
  let comment : Option String := if truthyRow r then rowVal r 0 else some ""
  let rows ← env.fetchall (oracleColumnsQuery ex.username t)
  pure { table_name := t
         comment := comment
         columns := rows.map (fun row =>
           { name := rowIdx row 0
             typeStr := rowIdx row 1
             comment := stripNewlines ((rowIdx row 2).getD "") }) }

/-- Embedding of `_get_doris_table_schema`. The comment starts as `""` and is
overwritten with the raw (possibly null) row value when a row is returned. -/
def _get_doris_table_schema (ex : DBSchemaExtractor) (env : DBEnv) (t : String) :
    Except DBErr TableSchema := do
  let db_name := ex.url.database
  let tr ← env.fetchone (dorisTableCommentQuery db_name t)
  let comment : Option String := if truthyRow tr then rowVal tr 0 else some ""
  let rows ← env.fetchall (dorisColumnsQuery db_name t)
  pure { table_name := t
         comment := comment
         columns := rows.map (fun row =>
           { name := rowIdx row 0
             typeStr := rowIdx row 1
             comment := stripNewlines ((rowIdx row 2).getD "") }) }

/-- Embedding of `_get_table_schema`: dispatch on the stored family string. -/
def _get_table_schema (ex : DBSchemaExtractor) (env : DBEnv) (t : String) :
    Except DBErr TableSchema :=
  if ex.db_type = "oracle" then _get_oracle_table_schema ex env t
  else if ex.db_type = "doris" then _get_doris_table_schema ex env t
  else get_generic_table_schema ex env t

/-- Table discovery step of `get_all_tables_schema`: `SHOW TABLES` first cells
for doris, `inspector.get_table_names()` otherwise. -/
def discoveredTables (ex : DBSchemaExtractor) (env : DBEnv) :
    Except DBErr (List String) :=
  if ex.db_type = "doris" then
    (env.fetchall "SHOW TABLES;").map (fun rows => rows.map (fun row => (rowIdx row 0).getD ""))
  else env.inspectorTables

/-- Target-table resolution of `get_all_tables_schema`: with a truthy filter,
split on commas, strip each entry, and keep entries present in the discovered
list; otherwise all discovered tables. -/
def targetTables (ex : DBSchemaExtractor) (env : DBEnv) (table_names : Option String) :
    Except DBErr (List String) :=
  (discoveredTables ex env).map (fun all =>
    if strOptTruthy table_names then
      ((pySplit (table_names.getD "")).map pyStrip).filter (fun x => all.contains x)
    else all)

/-- Insertion loop of `get_all_tables_schema`: `schemas[table] = self._get_table_schema(table)`
for each target table, an uncaught failure aborting the whole loop. -/
def schemaLoop (ex : DBSchemaExtractor) (env : DBEnv) :
    List String → SchemaMap → Except DBErr SchemaMap
  | [], acc => pure acc
  | t :: ts, acc => do
    let s ← _get_table_schema ex env t
    schemaLoop ex env ts (dictInsert acc t s)

/-- Embedding of `get_all_tables_schema`. -/
def get_all_tables_schema (ex : DBSchemaExtractor) (env : DBEnv)
    (table_names : Option String) : Except DBErr SchemaMap := do
  let ts ← targetTables ex env table_names
  schemaLoop ex env ts []

/-! Minimal SQL reading of the oracle comment query: a tokenizer for the
fragment `identifiers / = / 'literals'` and a precedence parser where `AND`
binds tighter than `OR`, used to settle what predicate the interpolated query
text denotes. -/

/-- Token of the SQL fragment: an identifier or keyword, `=`, or a quoted literal. -/
inductive Tok where
  | ident (s : String)
  | eq
  | lit (s : String)
  deriving DecidableEq

/-- Scanner state: at top level, inside an identifier, inside a quoted literal,
or failed on an unsupported character. -/
inductive ScanSt where
  | top
  | inIdent (acc : List Char)
  | inLit (acc : List Char)
  | fail
  deriving DecidableEq

/-- Characters allowed in identifiers of the fragment. -/
def isIdentChar (c : Char) : Bool := c.isAlpha || c.isDigit || c = '_' || c = '.'

/-- One scanner transition. -/
def scanStep : ScanSt × List Tok → Char → ScanSt × List Tok
  | (.top, ts), c =>
    if c = ' ' then (.top, ts)
    else if c = '=' then (.top, ts ++ [.eq])
    else if c = '\'' then (.inLit [], ts)
    else if isIdentChar c then (.inIdent [c], ts)
    else (.fail, ts)
  | (.inIdent acc, ts), c =>
    if isIdentChar c then (.inIdent (acc ++ [c]), ts)
    else if c = ' ' then (.top, ts ++ [.ident ⟨acc⟩])
    else if c = '=' then (.top, ts ++ [.ident ⟨acc⟩, .eq])
    else if c = '\'' then (.inLit [], ts ++ [.ident ⟨acc⟩])
    else (.fail, ts)
  | (.inLit acc, ts), c =>
    if c = '\'' then (.top, ts ++ [.lit ⟨acc⟩])
    else (.inLit (acc ++ [c]), ts)
  | (.fail, ts), _ => (.fail, ts)

/-- Tokenize a character list; fails on an unsupported character or an
unterminated literal. -/
def tokenize (l : List Char) : Option (List Tok) :=
  match l.foldl scanStep (.top, []) with
  | (.top, ts) => some ts
  | (.inIdent acc, ts) => some (ts ++ [.ident ⟨acc⟩])
  | _ => none

/-- Boolean expression denoted by a WHERE clause of the fragment. -/
inductive BExpr where
  | cmp (col lit : String)
  | and (a b : BExpr)
  | or (a b : BExpr)
  deriving DecidableEq

/-- Parse one comparison `column = 'literal'`. -/
def parseCmp : List Tok → Option (BExpr × List Tok)
  | .ident c :: .eq :: .lit v :: rest => some (.cmp c v, rest)
  | _ => none

/-- Left-associated chain of `AND`ed comparisons continuing `acc`. -/
def parseAndChain : Nat → BExpr → List Tok → Option (BExpr × List Tok)
  | 0, _, _ => none
  | fuel + 1, acc, ts =>
    match ts with
    | .ident kw :: rest =>
      if kw = "AND" then
        match parseCmp rest with
        | some (e, rest2) => parseAndChain fuel (.and acc e) rest2
        | none => none
      else some (acc, ts)
    | _ => some (acc, ts)

/-- Parse a conjunction: one comparison followed by its `AND` chain. -/
def parseConj (fuel : Nat) (ts : List Tok) : Option (BExpr × List Tok) :=
  match parseCmp ts with
  | some (e, rest) => parseAndChain fuel e rest
  | none => none

/-- Left-associated chain of `OR`ed conjunctions continuing `acc`. -/
def parseOrChain : Nat → BExpr → List Tok → Option (BExpr × List Tok)
  | 0, _, _ => none
  | fuel + 1, acc, ts =>
    match ts with
    | .ident kw :: rest =>
      if kw = "OR" then
        match parseConj fuel rest with
        | some (e, rest2) => parseOrChain fuel (.or acc e) rest2
        | none => none
      else some (acc, ts)
    | _ => some (acc, ts)

/-- Parse a full condition (`AND` binding tighter than `OR`), requiring all
tokens to be consumed. -/
def parseCond (ts : List Tok) : Option BExpr :=
  match parseConj (ts.length + 1) ts with
  | some (e, rest) =>
    match parseOrChain (rest.length + 1) e rest with
    | some (e2, []) => some e2
    | _ => none
  | none => none

/-- Tokens after the `WHERE` keyword. -/
def afterWhere : List Tok → Option (List Tok)
  | [] => none
  | .ident w :: rest => if w = "WHERE" then some rest else afterWhere rest
  | _ :: rest => afterWhere rest

/-- Predicate denoted by the WHERE clause of a query text. -/
def parseWhereClause (q : String) : Option BExpr :=
  match tokenize q.data with
  | some ts =>
    match afterWhere ts with
    | some rest => parseCond rest
    | none => none
  | none => none

/-- Evaluate a parsed condition against a row, viewed as an assignment of
column names to nullable values; a comparison with a null value is not
satisfied, as in SQL. -/
def evalB (row : String → Option String) : BExpr → Bool
  | .cmp c v => decide (row c = some v)
  | .and a b => evalB row a && evalB row b
  | .or a b => evalB row a || evalB row b

/-! Specification-side definitions (phrased from the claims) and helper
functions used to state the theorems. -/

/-- Whether an `Except` value carries a result rather than an error. -/
def exceptIsOk {ε α : Type} : Except ε α → Bool
  | .ok _ => true
  | .error _ => false

/-- Specification reading of the generic comment fallback: the table name when
the lookup returns no row or a first value that is null or empty, otherwise
that first value. -/
def specCommentFallback (t : String) : Option Row → String
  | none => t
  | some row =>
    match rowIdx row 0 with
    | none => t
    | some v => if v = "" then t else v

/-- Lookup query the generic path issues for each family, as the claims name it. -/
def genericCommentQuery (family t : String) : String :=
  if family = "mysql" then mysqlCommentQuery t
  else if family = "postgresql" then pgCommentQuery t
  else mssqlCommentQuery t

/-- Specification reading of the filter step: the filter entries (split on
commas, whitespace-trimmed) that occur in the discovered table list, in the
filter's order. -/
def matchedEntries (filter : String) (all : List String) : List String :=
  ((pySplit filter).map pyStrip).filter (fun x => all.contains x)

/-- Insert a key at the end of a key list unless it is already present. -/
def insKey (ks : List String) (x : String) : List String :=
  if x ∈ ks then ks else ks ++ [x]

/-- Distinct elements of a list in order of first occurrence: the key order a
Python dict reaches after inserting the list left to right. -/
def firstDedup (l : List String) : List String := l.foldl insKey []

/-! Concrete fixtures used by counterexamples and witnesses. -/

/-- Stub connection descriptor for fixtures. -/
def stubURL : URLDescr :=
  { drivername := "postgresql+psycopg2", username := "u", password := "p",
    host := "h", port := 5432, database := "db", query := none }

/-- Environment whose catalog lists the given tables and whose every query
succeeds with an empty result. -/
def benignEnv (tables : List String) : DBEnv :=
  { inspectorTables := .ok tables
    fetchone := fun _ => .ok none
    fetchall := fun _ => .ok []
    getColumns := fun _ => .ok [] }

/-- Extractor fixture with family `postgresql`. -/
def exPG : DBSchemaExtractor := { url := stubURL, db_type := "postgresql", username := "u" }

/-- Extractor fixture with family `mysql`. -/
def exMy : DBSchemaExtractor := { url := stubURL, db_type := "mysql", username := "u" }

/-- Extractor fixture with family `oracle`. -/
def exOracle : DBSchemaExtractor := { url := stubURL, db_type := "oracle", username := "u" }

/-- Extractor fixture with the family spelled `Oracle`, as `__init__` stores it. -/
def exOracleUC : DBSchemaExtractor := { url := stubURL, db_type := "Oracle", username := "u" }

/-- Extractor fixture with the family spelled `MYSQL`. -/
def exMyUC : DBSchemaExtractor := { url := stubURL, db_type := "MYSQL", username := "u" }

/-- Extractor fixture with family `doris`. -/
def exDoris : DBSchemaExtractor := { url := stubURL, db_type := "doris", username := "u" }

/-- Schema the generic path produces against `benignEnv`: the comment falls
back to the table name and there are no columns. -/
def stubSchema (t : String) : TableSchema :=
  { table_name := t, comment := some t, columns := [] }

/-- Environment whose oracle comment lookup for table `t` returns a row whose
single value is null. -/
def oracleNullCommentEnv : DBEnv :=
  { inspectorTables := .ok []
    fetchone := fun q => if q = oracleCommentQuery "u" "t" then .ok (some [none]) else .ok none
    fetchall := fun _ => .ok []
    getColumns := fun _ => .ok [] }

/-- Environment whose oracle comment lookup for table `t` returns the comment
`CMT`. -/
def oracleCommentEnv : DBEnv :=
  { inspectorTables := .ok []
    fetchone := fun q => if q = oracleCommentQuery "u" "t" then .ok (some [some "CMT"]) else .ok none
    fetchall := fun _ => .ok []
    getColumns := fun _ => .ok [] }

/-- Environment whose doris CREATE statement for `orders` carries
`COMMENT='Sales data'`. -/
def dorisCreateEnv : DBEnv :=
  { inspectorTables := .ok []
    fetchone := fun q =>
      if q = showCreateQuery "orders" then
        .ok (some [some "orders",
          some "CREATE TABLE orders (id int) COMMENT='Sales data' DISTRIBUTED BY HASH(id)"])
      else .ok none
    fetchall := fun _ => .ok []
    getColumns := fun _ => .ok [] }

/-- Environment where fetching columns of table `b` fails while everything
else succeeds. -/
def failBEnv : DBEnv :=
  { inspectorTables := .ok ["a", "b"]
    fetchone := fun _ => .ok none
    fetchall := fun _ => .ok []
    getColumns := fun t => if t = "b" then .error "boom" else .ok [] }

/-- Environment whose reflection reports one column of table `t` with a
newline inside its comment. -/
def newlineColEnv : DBEnv :=
  { inspectorTables := .ok ["t"]
    fetchone := fun _ => .ok none
    fetchall := fun _ => .ok []
    getColumns := fun _ => .ok [{ name := "x", typeStr := "INTEGER", comment := some "a\nb" }] }

/-! Helper lemmas. -/

theorem data_append (a b : String) : (a ++ b).data = a.data ++ b.data := by
  cases a
  cases b
  rfl

theorem toUpper_ne_quote {c : Char} (hc : c ≠ '\'') : c.toUpper ≠ '\'' := by
  unfold Char.toUpper
  by_cases h : c.toNat ≥ 97 ∧ c.toNat ≤ 122
  · obtain ⟨h1, h2⟩ := h
    simp only [h1, h2, and_self, if_true]
    generalize c.toNat = n at h1 h2
    interval_cases n <;> decide
  · simp only [h, if_false]
    exact hc

theorem pyUpper_no_quote {t : String} (ht : '\'' ∉ t.data) : '\'' ∉ (pyUpper t).data := by
  intro h
  obtain ⟨c, hc, hq⟩ := List.mem_map.mp h
  exact toUpper_ne_quote (fun he => ht (he ▸ hc)) hq

theorem concat3_ne_empty (a t b : String) (ha : a.length ≠ 0) : a ++ t ++ b ≠ "" := by
  intro h
  have hlen := congrArg String.length h
  simp only [String.length_append] at hlen
  have hz : String.length "" = 0 := rfl
  omega

theorem except_bind_ok {ε α β : Type} {x : Except ε α} {f : α → Except ε β} {b : β}
    (h : (x >>= f) = .ok b) : ∃ a, x = .ok a ∧ f a = .ok b := by
  cases x with
  | error e => exact absurd h (by simp [Bind.bind, Except.bind])
  | ok a => exact ⟨a, rfl, h⟩

theorem pyRowValOr_zero_eq_spec (t : String) (r : Option Row) :
    pyRowValOr 0 t r = specCommentFallback t r := by
  cases r with
  | none => rfl
  | some row =>
    cases row with
    | nil => rfl
    | cons v vs =>
      cases v <;> simp [pyRowValOr, specCommentFallback, rowIdx]

theorem strip_no_newline (s : String) : '\n' ∉ (stripNewlines s).data := by
  intro hmem
  have h : '\n' ∈ s.data.filter (fun c => c ≠ '\n') := hmem
  rw [List.mem_filter] at h
  simp at h

theorem keys_map_update (m : SchemaMap) (k : String) (v : TableSchema) :
    (m.map (fun p => if p.1 = k then (k, v) else p)).map Prod.fst = m.map Prod.fst := by
  induction m with
  | nil => rfl
  | cons p ps ih =>
    by_cases h : p.1 = k
    · simp [h, ih]
    · simp [h, ih]

theorem keys_dictInsert (m : SchemaMap) (k : String) (v : TableSchema) :
    (dictInsert m k v).map Prod.fst = insKey (m.map Prod.fst) k := by
  unfold dictInsert insKey
  by_cases h : ∃ p ∈ m, p.1 = k
  · have hb : m.any (fun p => p.1 = k) = true := by
      simpa [List.any_eq_true] using h
    have hm : k ∈ m.map Prod.fst := by
      obtain ⟨p, hp, he⟩ := h
      exact List.mem_map.mpr ⟨p, hp, he⟩
    rw [if_pos hb, if_pos hm, keys_map_update]
  · have hb : m.any (fun p => p.1 = k) = false := by
      rw [List.any_eq_false]
      intro p hp hpk
      exact h ⟨p, hp, by simpa using hpk⟩
    have hm : k ∉ m.map Prod.fst := by
      intro hk
      obtain ⟨p, hp, he⟩ := List.mem_map.mp hk
      exact h ⟨p, hp, he⟩
    rw [if_neg (by simp [hb]), if_neg hm, List.map_append]
    rfl

theorem schemaLoop_cons (ex : DBSchemaExtractor) (env : DBEnv) (t : String)
    (ts : List String) (acc : SchemaMap) :
    schemaLoop ex env (t :: ts) acc =
      (_get_table_schema ex env t) >>= (fun s => schemaLoop ex env ts (dictInsert acc t s)) := rfl

theorem schemaLoop_keys (ex : DBSchemaExtractor) (env : DBEnv) :
    ∀ (ts : List String) (acc m : SchemaMap),
      schemaLoop ex env ts acc = .ok m →
      m.map Prod.fst = ts.foldl insKey (acc.map Prod.fst) := by
  intro ts
  induction ts with
  | nil =>
    intro acc m h
    cases h
    rfl
  | cons t ts ih =>
    intro acc m h
    rw [schemaLoop_cons] at h
    obtain ⟨s, _, h2⟩ := except_bind_ok h
    rw [List.foldl_cons, ← keys_dictInsert]
    exact ih (dictInsert acc t s) m h2

theorem schemaLoop_all_ok (ex : DBSchemaExtractor) (env : DBEnv) :
    ∀ (ts : List String) (acc : SchemaMap),
      (∀ x ∈ ts, exceptIsOk (_get_table_schema ex env x) = true) →
      exceptIsOk (schemaLoop ex env ts acc) = true := by
  intro ts
  induction ts with
  | nil => intro acc _; rfl
  | cons t ts ih =>
    intro acc hall
    have ht := hall t (List.mem_cons_self ..)
    cases hs : _get_table_schema ex env t with
    | error e => rw [hs] at ht; exact absurd ht (by simp [exceptIsOk])
    | ok s =>
      rw [schemaLoop_cons, hs]
      exact ih (dictInsert acc t s) (fun x hx => hall x (List.mem_cons_of_mem _ hx))

theorem schemaLoop_first_error (ex : DBSchemaExtractor) (env : DBEnv) :
    ∀ (pre : List String) (t : String) (post : List String) (acc : SchemaMap) (e : DBErr),
      (∀ p ∈ pre, exceptIsOk (_get_table_schema ex env p) = true) →
      _get_table_schema ex env t = .error e →
      schemaLoop ex env (pre ++ t :: post) acc = .error e := by
  intro pre
  induction pre with
  | nil =>
    intro t post acc e _ he
    rw [List.nil_append, schemaLoop_cons, he]
    rfl
  | cons p ps ih =>
    intro t post acc e hpre he
    have hp := hpre p (List.mem_cons_self ..)
    cases hs : _get_table_schema ex env p with
    | error e2 => rw [hs] at hp; exact absurd hp (by simp [exceptIsOk])
    | ok s =>
      rw [List.cons_append, schemaLoop_cons, hs]
      exact ih t post (dictInsert acc p s) e
        (fun q hq => hpre q (List.mem_cons_of_mem _ hq)) he

theorem targetTables_some (ex : DBSchemaExtractor) (env : DBEnv) (s : String) (hs : s ≠ "")
    (all : List String) (hall : discoveredTables ex env = .ok all) :
    targetTables ex env (some s) = .ok (matchedEntries s all) := by
  unfold targetTables
  rw [hall]
  simp [strOptTruthy, hs, matchedEntries, Except.map]

/-! Claim theorems. -/

/-- Claim C1, counterexample: the claim quantifies over every filter string,
but passing the empty string is falsy in `if table_names:`, so the code
returns every discovered table (here the key `orders`), while the claim
predicts exactly the filter entries present in the discovered set, which for
the empty filter is the empty set. -/
theorem C1_counterexample :
    Except.map (fun m => m.map Prod.fst) (get_all_tables_schema exPG (benignEnv ["orders"]) (some ""))
      = .ok ["orders"]
    ∧ matchedEntries "" ["orders"] = []
    ∧ (["orders"] : List String) ≠ [] := ⟨rfl, rfl, by decide⟩

/-- Claim C1, amended: for every nonempty filter string, the result map's keys
are exactly the distinct filter entries (split on commas, whitespace-trimmed)
that occur in the discovered table list, in order of first occurrence in the
filter, entries not discovered being silently dropped; and the call succeeds
whenever every matched table's schema fetch succeeds. -/
theorem C1_amended (ex : DBSchemaExtractor) (env : DBEnv) (s : String) (hs : s ≠ "")
    (all : List String) (hall : discoveredTables ex env = .ok all) :
    (∀ m, get_all_tables_schema ex env (some s) = .ok m →
      m.map Prod.fst = firstDedup (matchedEntries s all)) ∧
    ((∀ x ∈ matchedEntries s all, exceptIsOk (_get_table_schema ex env x) = true) →
      exceptIsOk (get_all_tables_schema ex env (some s)) = true) := by
  have htt := targetTables_some ex env s hs all hall
  have hge : get_all_tables_schema ex env (some s)
      = schemaLoop ex env (matchedEntries s all) [] := by
    unfold get_all_tables_schema
    rw [htt]
    rfl
  constructor
  · intro m hm
    rw [hge] at hm
    exact schemaLoop_keys ex env _ [] m hm
  · intro hok
    rw [hge]
    exact schemaLoop_all_ok ex env _ [] hok

set_option maxRecDepth 8192 in
/-- Claim C1, witness of the amended theorem at the spec's own scenario:
filter `orders,customers` against discovered tables
`orders, customers, products` yields exactly the keys `orders, customers`
in that order. -/
theorem C1_amended_witness :
    ([("orders", stubSchema "orders"), ("customers", stubSchema "customers")] : SchemaMap).map Prod.fst
      = firstDedup (matchedEntries "orders,customers" ["orders", "customers", "products"]) :=
  (C1_amended exPG (benignEnv ["orders", "customers", "products"]) "orders,customers"
    (by decide) ["orders", "customers", "products"] rfl).1 _ rfl

/-- Claim C2: for the mysql, postgresql and mssql families, `_get_table_comment`
is the family-specific lookup followed by the fallback the claim states: the
table name when the query returns no row or a null or empty first value,
otherwise that first value. -/
theorem C2_generic_comment_fallback (ex : DBSchemaExtractor) (env : DBEnv) (t : String)
    (h : ex.db_type = "mysql" ∨ ex.db_type = "postgresql" ∨ ex.db_type = "mssql") :
    _get_table_comment ex env t
      = (env.fetchone (genericCommentQuery ex.db_type t)).map (specCommentFallback t) := by
  have hmap : ∀ q, (env.fetchone q).map (pyRowValOr 0 t)
      = (env.fetchone q).map (specCommentFallback t) := by
    intro q
    cases env.fetchone q with
    | error e => rfl
    | ok r => simp [Except.map, pyRowValOr_zero_eq_spec]
  have hne₁ : mysqlCommentQuery t ≠ "" := by
    unfold mysqlCommentQuery
    exact concat3_ne_empty _ t _ (by decide)
  have hne₂ : pgCommentQuery t ≠ "" := by
    unfold pgCommentQuery
    exact concat3_ne_empty _ t _ (by decide)
  have hne₃ : mssqlCommentQuery t ≠ "" := by
    unfold mssqlCommentQuery
    exact concat3_ne_empty _ t _ (by decide)
  rcases h with h | h | h
  · simp [_get_table_comment, genericCommentQuery, h]
    rw [if_neg hne₁]
    exact hmap _
  · simp [_get_table_comment, genericCommentQuery, h]
    rw [if_neg hne₂]
    exact hmap _
  · simp [_get_table_comment, genericCommentQuery, h]
    rw [if_neg hne₃]
    exact hmap _

/-- Claim C2, witness: for mysql with a lookup returning no row, the comment
falls back to the table name `users`. -/
theorem C2_witness : _get_table_comment exMy (benignEnv []) "users" = .ok "users" :=
  (C2_generic_comment_fallback exMy (benignEnv []) "users" (Or.inl rfl)).trans rfl

/-- Claim C3: for the doris family, `_get_table_comment` fetches the CREATE
statement and returns the first capture of the case-insensitive pattern
`COMMENT='...'`, falling back to the table name when there is no match —
in particular when the CREATE-statement fetch yields nothing; a CREATE
statement carrying `COMMENT='Sales data'` yields exactly `Sales data`, and one
with no COMMENT clause yields the table name. -/
theorem C3_doris_comment (ex : DBSchemaExtractor) (env : DBEnv) (t : String)
    (hd : ex.db_type = "doris") :
    (_get_table_comment ex env t
      = (_get_doris_create_statement env t).map (fun stmt => (firstCommentCapture stmt).getD t))
    ∧ (env.fetchone (showCreateQuery t) = .ok none → _get_table_comment ex env t = .ok t)
    ∧ firstCommentCapture
        "CREATE TABLE orders (id int) COMMENT='Sales data' DISTRIBUTED BY HASH(id)"
        = some "Sales data"
    ∧ firstCommentCapture "CREATE TABLE orders (id int)" = none := by
  have h1 : _get_table_comment ex env t
      = (_get_doris_create_statement env t).map (fun stmt => (firstCommentCapture stmt).getD t) := by
    simp [_get_table_comment, hd]
    cases hc : _get_doris_create_statement env t with
    | error e => rfl
    | ok stmt =>
      simp [Except.map]
      cases firstCommentCapture stmt <;> simp
  refine ⟨h1, ?_, by decide, by decide⟩
  intro hno
  rw [h1]
  unfold _get_doris_create_statement
  rw [hno]
  rfl

/-- Claim C3, witness: a doris CREATE statement carrying
`COMMENT='Sales data'` yields exactly `Sales data`. -/
theorem C3_witness : _get_table_comment exDoris dorisCreateEnv "orders" = .ok "Sales data" :=
  ((C3_doris_comment exDoris dorisCreateEnv "orders" rfl).1).trans rfl

/-- Claim C4, counterexample: the claim says the comment is the empty string
even when a catalog row exists but carries a null comment value, yet on such a
row the oracle path stores the raw null (Python `None`, modelled `none`), not
`""`. -/
theorem C4_counterexample :
    Except.map TableSchema.comment (_get_table_schema exOracle oracleNullCommentEnv "t") = .ok none
    ∧ (some "" : Option String) ≠ none := ⟨rfl, by decide⟩

/-- Claim C4, amended: the oracle and doris paths store the empty string as
the table comment when the comment lookup returns no row, but when a row
exists they store its first value verbatim — so a null value is stored as
null, not as the empty string. (Column comments are strings on every path by
construction.) -/
theorem C4_amended (ex : DBSchemaExtractor) (env : DBEnv) (t : String) :
    (ex.db_type = "oracle" →
      ∀ rows, env.fetchall (oracleColumnsQuery ex.username t) = .ok rows →
        ((env.fetchone (oracleCommentQuery ex.username t) = .ok none →
          Except.map TableSchema.comment (_get_table_schema ex env t) = .ok (some "")) ∧
        (∀ r, env.fetchone (oracleCommentQuery ex.username t) = .ok (some r) → r ≠ [] →
          Except.map TableSchema.comment (_get_table_schema ex env t) = .ok (rowIdx r 0))))
    ∧ (ex.db_type = "doris" →
      ∀ rows, env.fetchall (dorisColumnsQuery ex.url.database t) = .ok rows →
        ((env.fetchone (dorisTableCommentQuery ex.url.database t) = .ok none →
          Except.map TableSchema.comment (_get_table_schema ex env t) = .ok (some "")) ∧
        (∀ r, env.fetchone (dorisTableCommentQuery ex.url.database t) = .ok (some r) → r ≠ [] →
          Except.map TableSchema.comment (_get_table_schema ex env t) = .ok (rowIdx r 0)))) := by
  constructor
  · intro hd rows hrows
    constructor
    · intro hno
      simp [_get_table_schema, hd, _get_oracle_table_schema, hno, hrows, truthyRow,
        Except.map, Bind.bind, Except.bind]
      rfl
    · intro r hrow hne
      have hemp : r.isEmpty = false := by
        cases r with
        | nil => exact absurd rfl hne
        | cons a as => rfl
      simp [_get_table_schema, hd, _get_oracle_table_schema, hrow, hrows, truthyRow, hemp,
        rowVal, Except.map, Bind.bind, Except.bind]
      rfl
  · intro hd rows hrows
    constructor
    · intro hno
      simp [_get_table_schema, hd, _get_doris_table_schema, hno, hrows, truthyRow,
        Except.map, Bind.bind, Except.bind]
      rfl
    · intro r hrow hne
      have hemp : r.isEmpty = false := by
        cases r with
        | nil => exact absurd rfl hne
        | cons a as => rfl
      simp [_get_table_schema, hd, _get_doris_table_schema, hrow, hrows, truthyRow, hemp,
        rowVal, Except.map, Bind.bind, Except.bind]
      rfl

/-- Claim C4, witness of the amended theorem: oracle with no catalog row
yields the empty-string comment. -/
theorem C4_witness :
    Except.map TableSchema.comment (_get_table_schema exOracle (benignEnv []) "t")
      = .ok (some "") :=
  (((C4_amended exOracle (benignEnv []) "t").1 rfl [] rfl).1) rfl

/-- Claim C5: on every family path, every column comment in a returned schema
has every newline character removed. -/
theorem C5_no_newlines (ex : DBSchemaExtractor) (env : DBEnv) (t : String)
    (sch : TableSchema) (h : _get_table_schema ex env t = .ok sch) :
    ∀ c ∈ sch.columns, '\n' ∉ c.comment.data := by
  intro c hc
  unfold _get_table_schema at h
  split_ifs at h with h1 h2
  · unfold _get_oracle_table_schema at h
    obtain ⟨r, _, h3⟩ := except_bind_ok h
    obtain ⟨rows, _, h4⟩ := except_bind_ok h3
    rw [← Except.ok.inj h4] at hc
    obtain ⟨row, _, hrow⟩ := List.mem_map.mp hc
    rw [← hrow]
    exact strip_no_newline _
  · unfold _get_doris_table_schema at h
    obtain ⟨r, _, h3⟩ := except_bind_ok h
    obtain ⟨rows, _, h4⟩ := except_bind_ok h3
    rw [← Except.ok.inj h4] at hc
    obtain ⟨row, _, hrow⟩ := List.mem_map.mp hc
    rw [← hrow]
    exact strip_no_newline _
  · unfold get_generic_table_schema at h
    obtain ⟨cm, _, h3⟩ := except_bind_ok h
    obtain ⟨cols, _, h4⟩ := except_bind_ok h3
    rw [← Except.ok.inj h4] at hc
    obtain ⟨col, _, hcol⟩ := List.mem_map.mp hc
    rw [← hcol]
    exact strip_no_newline _

/-- Claim C5, witness: a reflected column comment `a\nb` comes back with the
newline removed. -/
theorem C5_witness : '\n' ∉ (stripNewlines "a\nb").data :=
  C5_no_newlines exPG newlineColEnv "t"
    { table_name := "t", comment := some "t",
      columns := [{ name := some "x", typeStr := some "INTEGER",
                    comment := stripNewlines "a\nb" }] }
    rfl
    { name := some "x", typeStr := some "INTEGER", comment := stripNewlines "a\nb" }
    (by simp)

/-- Claim C6: when the schema fetch of one target table fails and every table
before it succeeds, `get_all_tables_schema` fails with exactly that error and
returns no partial map; per-table errors are not caught. -/
theorem C6_error_propagation (ex : DBSchemaExtractor) (env : DBEnv) (filt : Option String)
    (pre : List String) (t : String) (post : List String) (e : DBErr)
    (hts : targetTables ex env filt = .ok (pre ++ t :: post))
    (hpre : ∀ p ∈ pre, exceptIsOk (_get_table_schema ex env p) = true)
    (he : _get_table_schema ex env t = .error e) :
    get_all_tables_schema ex env filt = .error e := by
  unfold get_all_tables_schema
  rw [hts]
  exact schemaLoop_first_error ex env pre t post [] e hpre he

/-- Claim C6, witness: with tables `a` (fetch succeeds) and `b` (column fetch
fails with `boom`), the whole batch fails with `boom`. -/
theorem C6_witness : get_all_tables_schema exPG failBEnv none = .error "boom" :=
  C6_error_propagation exPG failBEnv none ["a"] "b" [] "boom" rfl
    (by
      intro p hp
      rw [List.mem_singleton.mp hp]
      rfl)
    rfl

/-- Claim C7, counterexample: construction is case-insensitive (the URL for
`Oracle` equals the URL for `oracle`), but dispatch compares the stored
spelling case-sensitively, so on the same environment the family `Oracle`
takes the generic path (comment falls back to the table name `t`) while
`oracle` takes the oracle path (comment `CMT`) — not the same extraction
path as the lowercase spelling, contradicting the claim. -/
theorem C7_counterexample :
    _build_db_url "Oracle" "h" 1521 "u" "p" "db" "" = _build_db_url "oracle" "h" 1521 "u" "p" "db" ""
    ∧ Except.map TableSchema.comment (_get_table_schema exOracleUC oracleCommentEnv "t")
        = .ok (some "t")
    ∧ Except.map TableSchema.comment (_get_table_schema exOracle oracleCommentEnv "t")
        = .ok (some "CMT")
    ∧ (some "t" : Option String) ≠ some "CMT" := ⟨rfl, rfl, rfl, by decide⟩

/-- Claim C7, amended: the family identifier is lowercased only when the
connection descriptor is built, so construction is case-insensitive and the
lowercase alias `doris` selects the mysql driver while dispatching to the
doris metadata path; but `_get_table_schema` and `_get_table_comment` compare
the stored spelling case-sensitively, so any spelling other than lowercase
`oracle`/`doris` follows the generic path, and a spelling matching none of
the lowercase family names makes the comment lookup fall back to the table
name. -/
theorem C7_amended :
    (∀ f g host port u pw db props, pyLower f = pyLower g →
      _build_db_url f host port u pw db props = _build_db_url g host port u pw db props)
    ∧ Except.map URLDescr.drivername (_build_db_url "doris" "h" 3306 "u" "p" "db" "")
        = .ok "mysql+pymysql"
    ∧ (∀ (ex : DBSchemaExtractor) (env : DBEnv) (t : String), ex.db_type = "doris" →
        _get_table_schema ex env t = _get_doris_table_schema ex env t)
    ∧ (∀ (ex : DBSchemaExtractor) (env : DBEnv) (t : String),
        ex.db_type ≠ "oracle" → ex.db_type ≠ "doris" →
        _get_table_schema ex env t = get_generic_table_schema ex env t)
    ∧ (∀ (ex : DBSchemaExtractor) (env : DBEnv) (t : String),
        ex.db_type ≠ "mysql" → ex.db_type ≠ "postgresql" → ex.db_type ≠ "mssql" →
        ex.db_type ≠ "doris" → _get_table_comment ex env t = .ok t) := by
  refine ⟨?_, rfl, ?_, ?_, ?_⟩
  · intro f g host port u pw db props hfg
    unfold _build_db_url
    rw [hfg]
  · intro ex env t hd
    simp [_get_table_schema, hd]
  · intro ex env t h1 h2
    unfold _get_table_schema
    rw [if_neg h1, if_neg h2]
  · intro ex env t h1 h2 h3 h4
    simp [_get_table_comment, h1, h2, h3, h4]
    rfl

/-- Claim C7, witness of the amended theorem: the spelling `MYSQL` reaches no
family branch of the comment lookup and falls back to the table name. -/
theorem C7_witness : _get_table_comment exMyUC (benignEnv []) "t" = .ok "t" :=
  C7_amended.2.2.2.2 exMyUC (benignEnv []) "t" (by decide) (by decide) (by decide) (by decide)

/-- Claim C8: construction with a family string whose lowercasing is none of
the five supported values fails with the configuration error (the
`drivers[...]` KeyError) naming that family. -/
theorem C8_unknown_family (f host : String) (port : Int) (u pw db props : String)
    (h : pyLower f ∉ (["mysql", "postgresql", "oracle", "mssql", "doris"] : List String)) :
    _build_db_url f host port u pw db props = .error (.unknownFamily (pyLower f)) := by
  simp only [List.mem_cons, List.not_mem_nil, or_false, not_or] at h
  obtain ⟨h1, h2, h3, h4, h5⟩ := h
  simp [_build_db_url, driverFor, h1, h2, h3, h4, h5]

/-- Claim C8, witness: the family `sqlite` is rejected at construction. -/
theorem C8_witness :
    _build_db_url "sqlite" "h" 1 "u" "p" "db" "" = .error (.unknownFamily (pyLower "sqlite")) :=
  C8_unknown_family "sqlite" "h" 1 "u" "p" "db" "" (by decide)

/-- Claim C10: passing the empty string as the filter behaves exactly like
passing no filter at all — the empty string is falsy in `if table_names:`,
so it is never split into filter entries. -/
theorem C10_empty_filter (ex : DBSchemaExtractor) (env : DBEnv) :
    get_all_tables_schema ex env (some "") = get_all_tables_schema ex env none := rfl

/-! Lemmas about the scanner and parser, leading to claim C9. -/

theorem scanStep_shift (st : ScanSt) (ts : List Tok) (c : Char) :
    scanStep (st, ts) c = ((scanStep (st, []) c).1, ts ++ (scanStep (st, []) c).2) := by
  cases st <;> simp [scanStep] <;> split_ifs <;> simp

theorem foldl_scanStep_shift (l : List Char) (st : ScanSt) (ts : List Tok) :
    l.foldl scanStep (st, ts) =
      ((l.foldl scanStep (st, [])).1, ts ++ (l.foldl scanStep (st, [])).2) := by
  induction l generalizing st ts with
  | nil => simp
  | cons c cs ih =>
    rw [List.foldl_cons, List.foldl_cons, scanStep_shift,
      ih (scanStep (st, []) c).1 (ts ++ (scanStep (st, []) c).2)]
    conv_rhs => rw [← Prod.mk.eta (p := scanStep (st, []) c),
      ih (scanStep (st, []) c).1 (scanStep (st, []) c).2]
    simp

theorem foldl_scanStep_inLit (l : List Char) (hl : '\'' ∉ l) (acc : List Char) (ts : List Tok) :
    l.foldl scanStep (.inLit acc, ts) = (.inLit (acc ++ l), ts) := by
  induction l generalizing acc with
  | nil => simp
  | cons c cs ih =>
    have hc : c ≠ '\'' := fun h => hl (h ▸ List.mem_cons_self ..)
    rw [List.foldl_cons, show scanStep (.inLit acc, ts) c = (.inLit (acc ++ [c]), ts) by
      simp [scanStep, hc]]
    rw [ih (fun h => hl (List.mem_cons_of_mem _ h)) (acc ++ [c])]
    simp

theorem foldl_scanStep_quoted (v rest : List Char) (hv : '\'' ∉ v) (ts : List Tok) :
    List.foldl scanStep (.top, ts) ('\'' :: (v ++ '\'' :: rest)) =
      List.foldl scanStep (.top, ts ++ [.lit ⟨v⟩]) rest := by
  rw [List.foldl_cons, show scanStep (.top, ts) '\'' = (.inLit [], ts) by simp [scanStep]]
  rw [show (v ++ '\'' :: rest) = v ++ ('\'' :: rest) from rfl, List.foldl_append]
  rw [foldl_scanStep_inLit v hv [] ts]
  rw [List.foldl_cons, show scanStep (.inLit ([] ++ v), ts) '\'' = (.top, ts ++ [.lit ⟨v⟩]) by
    simp [scanStep]]

theorem foldl_scanStep_seg (seg : List Char) (ts out : List Tok)
    (h : List.foldl scanStep (.top, []) seg = (.top, out)) :
    List.foldl scanStep (.top, ts) seg = (.top, ts ++ out) := by
  rw [foldl_scanStep_shift, h]

theorem tokenize_oracleCommentQuery (u t : String)
    (hu : '\'' ∉ u.data) (ht : '\'' ∉ t.data) :
    tokenize (oracleCommentQuery u t).data = some
      [.ident "SELECT", .ident "COMMENTS", .ident "FROM", .ident "ALL_TAB_COMMENTS",
       .ident "WHERE", .ident "OWNER", .eq, .lit u, .ident "AND", .ident "TABLE_NAME",
       .eq, .lit t, .ident "OR", .ident "TABLE_NAME", .eq, .lit (pyUpper t)] := by
  have htU : '\'' ∉ (pyUpper t).data := pyUpper_no_quote ht
  have hdata : (oracleCommentQuery u t).data =
      "SELECT COMMENTS FROM ALL_TAB_COMMENTS WHERE OWNER = ".data ++
        ('\'' :: (u.data ++ '\'' :: (" AND TABLE_NAME = ".data ++
          ('\'' :: (t.data ++ '\'' :: (" OR TABLE_NAME = ".data ++
            ('\'' :: ((pyUpper t).data ++ ['\'']))))))))  := by
    have hA : ("SELECT COMMENTS FROM ALL_TAB_COMMENTS WHERE OWNER = '").data
        = "SELECT COMMENTS FROM ALL_TAB_COMMENTS WHERE OWNER = ".data ++ ['\''] := by decide
    have hB : ("' AND TABLE_NAME = '").data
        = '\'' :: (" AND TABLE_NAME = ".data ++ ['\'']) := by decide
    have hC : ("' OR TABLE_NAME = '").data
        = '\'' :: (" OR TABLE_NAME = ".data ++ ['\'']) := by decide
    have hD : ("'").data = ['\''] := by decide
    simp only [oracleCommentQuery, data_append, hA, hB, hC, hD, List.append_assoc,
      List.cons_append, List.singleton_append, List.nil_append]
  have h0 : List.foldl scanStep (.top, [])
      "SELECT COMMENTS FROM ALL_TAB_COMMENTS WHERE OWNER = ".data
      = (.top, [.ident "SELECT", .ident "COMMENTS", .ident "FROM", .ident "ALL_TAB_COMMENTS",
                .ident "WHERE", .ident "OWNER", .eq]) := by decide
  have h1 : List.foldl scanStep (.top, []) " AND TABLE_NAME = ".data
      = (.top, [.ident "AND", .ident "TABLE_NAME", .eq]) := by decide
  have h2 : List.foldl scanStep (.top, []) " OR TABLE_NAME = ".data
      = (.top, [.ident "OR", .ident "TABLE_NAME", .eq]) := by decide
  unfold tokenize
  rw [hdata, List.foldl_append, h0,
    foldl_scanStep_quoted u.data _ hu,
    List.foldl_append, foldl_scanStep_seg _ _ _ h1,
    foldl_scanStep_quoted t.data _ ht,
    List.foldl_append, foldl_scanStep_seg _ _ _ h2,
    foldl_scanStep_quoted (pyUpper t).data _ htU,
    List.foldl_nil]
  rfl

/-- Claim C9: under standard SQL precedence (AND binds tighter than OR), the
WHERE clause of the oracle table-comment query denotes the predicate
`(OWNER = username AND TABLE_NAME = table) OR TABLE_NAME = upper(table)`: the
OWNER condition scopes only the first TABLE_NAME comparison, and the
uppercased alternative is satisfied by a row regardless of its owner. -/
theorem C9_oracle_precedence (u t : String) (hu : '\'' ∉ u.data) (ht : '\'' ∉ t.data) :
    parseWhereClause (oracleCommentQuery u t) =
      some (.or (.and (.cmp "OWNER" u) (.cmp "TABLE_NAME" t)) (.cmp "TABLE_NAME" (pyUpper t)))
    ∧ ∀ row : String → Option String,
        (evalB row (.or (.and (.cmp "OWNER" u) (.cmp "TABLE_NAME" t))
            (.cmp "TABLE_NAME" (pyUpper t))) = true
          ↔ ((row "OWNER" = some u ∧ row "TABLE_NAME" = some t)
              ∨ row "TABLE_NAME" = some (pyUpper t))) := by
  constructor
  · unfold parseWhereClause
    rw [tokenize_oracleCommentQuery u t hu ht]
    rfl
  · intro row
    simp [evalB]

/-- Claim C9, witness: the parsed predicate at username `SCOTT`, table
`orders`. -/
theorem C9_witness :
    parseWhereClause (oracleCommentQuery "SCOTT" "orders") =
      some (.or (.and (.cmp "OWNER" "SCOTT") (.cmp "TABLE_NAME" "orders"))
        (.cmp "TABLE_NAME" (pyUpper "orders"))) :=
  (C9_oracle_precedence "SCOTT" "orders" (by decide) (by decide)).1

end Dify
